import Mathlib

set_option maxRecDepth 8000
set_option maxHeartbeats 1000000

/-!
# Verification of the browser-use MCP SSE transport adapter

Shallow embedding of `browser_use/mcp/server_sse.py`: the `SSEMCPServer`
request handlers (`handle_sse`, `handle_messages`, `health_check`), the
module-level dependency import guards, and the `__main__` entry blocks.

Byte strings are modelled as `List Nat` (one element per byte); Python
text strings either as `String` or as their list of Unicode code points.
The external `mcp` library object `SseServerTransport` is an external
collaborator of this repository; its `handle_post_message` is modelled
from the contract the spec states for it.
-/

/-- A byte string: each element is one byte value (0..255 in practice). -/
abbrev Bytes := List Nat

/-! ## UTF-8, as Python `bytes.decode` / `str.encode` with the utf-8 codec

`utf8Decode` accepts exactly the canonical (shortest-form, surrogate-free,
at most U+10FFFF) sequences, as CPython strict utf-8 decoding does, and
returns the decoded code points.  `utf8Encode` is the standard encoder. -/

/-- A continuation byte `0x80..0xBF`. -/
def contByte (c : Nat) : Prop := 0x80 ≤ c ∧ c ≤ 0xBF

instance (c : Nat) : Decidable (contByte c) := by
  unfold contByte; infer_instance

/-- Constraint on the second byte of a three-byte sequence (shortest form,
no surrogates), as in CPython strict utf-8 decoding. -/
def secondOf3 (b c1 : Nat) : Prop :=
  contByte c1 ∧ (b = 0xE0 → 0xA0 ≤ c1) ∧ (b = 0xED → c1 ≤ 0x9F)

instance (b c1 : Nat) : Decidable (secondOf3 b c1) := by
  unfold secondOf3; infer_instance

/-- Constraint on the second byte of a four-byte sequence (shortest form,
code point at most U+10FFFF). -/
def secondOf4 (b c1 : Nat) : Prop :=
  contByte c1 ∧ (b = 0xF0 → 0x90 ≤ c1) ∧ (b = 0xF4 → c1 ≤ 0x8F)

instance (b c1 : Nat) : Decidable (secondOf4 b c1) := by
  unfold secondOf4; infer_instance

/-- Decode one code point from a first byte `b` and the remaining bytes:
`some (codePoint, rest)` or `none` on an invalid sequence. -/
def utf8DecodeOne (b : Nat) (rest : List Nat) : Option (Nat × List Nat) :=
  if b < 0x80 then some (b, rest)
  else if 0xC2 ≤ b ∧ b ≤ 0xDF then
    match rest with
    | c1 :: rest2 =>
      if contByte c1 then some ((b - 0xC0) * 64 + (c1 - 0x80), rest2) else none
    | [] => none
  else if 0xE0 ≤ b ∧ b ≤ 0xEF then
    match rest with
    | c1 :: c2 :: rest3 =>
      if secondOf3 b c1 ∧ contByte c2 then
        some ((b - 0xE0) * 4096 + (c1 - 0x80) * 64 + (c2 - 0x80), rest3)
      else none
    | _ => none
  else if 0xF0 ≤ b ∧ b ≤ 0xF4 then
    match rest with
    | c1 :: c2 :: c3 :: rest4 =>
      if secondOf4 b c1 ∧ contByte c2 ∧ contByte c3 then
        some ((b - 0xF0) * 262144 + (c1 - 0x80) * 4096 + (c2 - 0x80) * 64
              + (c3 - 0x80), rest4)
      else none
    | _ => none
  else none

/-- Fuelled decoding loop; each step consumes at least one byte, so fuel
equal to the length of the input always suffices. -/
def utf8DecodeFuel : Nat → List Nat → Option (List Nat)
  | _, [] => some []
  | 0, _ :: _ => none
  | fuel + 1, b :: rest =>
    match utf8DecodeOne b rest with
    | none => none
    | some (cp, rest') => (utf8DecodeFuel fuel rest').map (cp :: ·)

/-- Strict UTF-8 decoder (as Python `bytes.decode` with utf-8): `some` list
of code points, or `none` on any invalid, overlong, surrogate, out-of-range
or truncated sequence, in which case Python raises `UnicodeDecodeError`. -/
def utf8Decode (l : List Nat) : Option (List Nat) := utf8DecodeFuel l.length l

/-- UTF-8 encoding of one code point. -/
def utf8EncodeChar (cp : Nat) : List Nat :=
  if cp < 0x80 then [cp]
  else if cp < 0x800 then [0xC0 + cp / 64, 0x80 + cp % 64]
  else if cp < 0x10000 then
    [0xE0 + cp / 4096, 0x80 + cp / 64 % 64, 0x80 + cp % 64]
  else
    [0xF0 + cp / 262144, 0x80 + cp / 4096 % 64, 0x80 + cp / 64 % 64,
     0x80 + cp % 64]

/-- UTF-8 encoder (as Python `str.encode` with utf-8). -/
def utf8Encode : List Nat → List Nat
  | [] => []
  | c :: cs => utf8EncodeChar c ++ utf8Encode cs

/-! ## Data model of `SSEMCPServer.handle_messages` -/

/-- Python substring test `needle begins haystack` on character lists. -/
def charsBegin : List Char → List Char → Bool
  | _, [] => true
  | [], _ :: _ => false
  | a :: as, b :: bs => a == b && charsBegin as bs

/-- Python substring containment on character lists. -/
def charsContain : List Char → List Char → Bool
  | [], needle => needle.isEmpty
  | a :: tl, needle => charsBegin (a :: tl) needle || charsContain tl needle

/-- The Python expression `needle in haystack` on strings. -/
def strContains (haystack needle : String) : Bool :=
  charsContain haystack.toList needle.toList

/-- A value of a parsed multipart form field: either an uploaded file
(an object with a `read` method returning raw bytes) or a plain text
string, modelled as its list of Unicode code points. -/
inductive FormField
  | file (content : Bytes)
  | text (s : List Nat)
deriving DecidableEq

/-- Python truthiness of a form field value: an empty string is falsy;
an `UploadFile` object is always truthy. -/
def FormField.isFalsy : FormField → Bool
  | .file _ => false
  | .text s => s.isEmpty

/-- `form.get(key)`: the starlette `FormData` mapping keeps the last value
for a repeated key and returns `None` when the key is absent. -/
def formGet (form : List (String × FormField)) (key : String) :
    Option FormField :=
  match form with
  | [] => none
  | (k, v) :: rest =>
    match formGet rest key with
    | some r => some r
    | none => if k = key then some v else none

/-- Extraction of the JSON text from the `data` field, as in the handler:
an `UploadFile` is `read` and its bytes decoded as UTF-8 (which can raise
`UnicodeDecodeError`, modelled as `none`); a plain string is used as is. -/
def fieldText : FormField → Option (List Nat)
  | .file content => utf8Decode content
  | .text s => some s

/-- The message text of the `UnicodeDecodeError` raised by a failing
UTF-8 decode (its exact wording is irrelevant to the control flow). -/
def unicodeDecodeErrorText : String :=
  "\x27utf-8\x27 codec can\x27t decode byte"

/-- State of the MCP session addressed by the request, as the engine sees
it: known and open, known but closed, or never created. -/
inductive SessionState
  | Open
  | Closed
  | NotFound
deriving DecidableEq

/-- What one call of the engine message endpoint did: the HTTP status it
sent through the raw ASGI send channel, and the payload bytes it delivered
to the session queue, if any. -/
structure PostResult where
  status : Nat
  delivered : Option Bytes
deriving DecidableEq

/-- Modelled from the spec: `SseServerTransport.handle_post_message` of the
external `mcp` library (an external collaborator, not part of this
repository).  Per the contract in the spec it sends `202 Accepted` and
enqueues the payload when the session is open and the body parses, a
client error `400` on malformed data or a closed session, and `404` on an
unknown session id; the response is written directly to the ASGI send
channel handed to it. -/
def handle_post_message (session : SessionState) (parsesOk : Bool)
    (payload : Bytes) : PostResult :=
  match session with
  | .NotFound => ⟨404, none⟩
  | .Closed => ⟨400, none⟩
  | .Open => if parsesOk then ⟨202, some payload⟩ else ⟨400, none⟩

/-- An incoming POST `/messages` request, after ASGI and form parsing:
the content-type header, the parsed multipart form (when present), the
raw body bytes, and the state of the addressed session together with
whether the payload parses as a JSON-RPC message. -/
structure Request where
  contentType : String
  form : List (String × FormField)
  body : Bytes
  session : SessionState
  parsesOk : Bool
deriving DecidableEq

/-- The observable outcome of one `handle_messages` invocation: the result
of the forwarded `sse.handle_post_message` call when one was made, and the
status, body and media type of the `Response` object the handler returns. -/
structure HandlerResult where
  transport : Option PostResult
  retStatus : Nat
  retBody : String
  retMedia : Option String
deriving DecidableEq

/-- The multipart content-type test of the handler:
`"multipart/form-data" in content_type`. -/
def isMultipartReq (req : Request) : Bool :=
  strContains req.contentType "multipart/form-data"

/-- The `try` body of `SSEMCPServer.handle_messages` (lines 103-160).
`transportExc` injects an exception raised inside the forwarded
`sse.handle_post_message` call; `Except.error` is an exception escaping
the `try` body.  The multipart branch extracts the `data` field, decodes
an uploaded file as UTF-8, re-encodes the text as UTF-8 bytes and forwards
them through a rebuilt receive callable; the JSON branch forwards the raw
request unchanged. -/
def handle_messages_body (req : Request) (transportExc : Option String) :
    Except String HandlerResult :=
  if isMultipartReq req then
    match formGet req.form "data" with
    | none =>
      .ok ⟨none, 400, "Missing \x27data\x27 field in form", some "text/plain"⟩
    | some f =>
      if f.isFalsy then
        .ok ⟨none, 400, "Missing \x27data\x27 field in form", some "text/plain"⟩
      else
        match fieldText f with
        | none => .error unicodeDecodeErrorText
        | some jsonBody =>
          match transportExc with
          | some e => .error e
          | none =>
            .ok ⟨some (handle_post_message req.session req.parsesOk
                    (utf8Encode jsonBody)), 200, "", none⟩
  else
    match transportExc with
    | some e => .error e
    | none =>
      .ok ⟨some (handle_post_message req.session req.parsesOk req.body),
           200, "", none⟩

/-- `SSEMCPServer.handle_messages`: the `try` body wrapped in the
`except Exception` clause (lines 162-164), which converts any exception
into a `500` `text/plain` response whose body is `str(exc)`. -/
def handle_messages_full (req : Request) (transportExc : Option String) :
    HandlerResult :=
  match handle_messages_body req transportExc with
  | .ok r => r
  | .error e => ⟨none, 500, e, some "text/plain"⟩

/-- `handle_messages` in the normal case: no exception raised inside the
forwarded transport call. -/
def handle_messages (req : Request) : HandlerResult :=
  handle_messages_full req none

/-- The status the HTTP client observes for a POST `/messages`: when the
handler forwarded to `sse.handle_post_message`, that call already sent its
own response through the raw ASGI send channel (`request._send`), which
reaches the client first; otherwise the client sees the `Response` the
handler returns. -/
def clientStatus (h : HandlerResult) : Nat :=
  match h.transport with
  | some r => r.status
  | none => h.retStatus

/-- The payload bytes the engine observed from this request, if any. -/
def engineObserved (h : HandlerResult) : Option Bytes :=
  match h.transport with
  | some r => r.delivered
  | none => none

/-- `SSEMCPServer.handle_sse` (lines 75-94): runs the MCP engine inside
`connect_sse` and returns an empty `Response` (status 200).  The handler
body has no `try`/`except` of its own, so an exception from the engine run
leaves the handler as an exception (`Except.error`). -/
def handle_sse_run (engine : Except String Unit) : Except String Nat :=
  match engine with
  | .ok _ => .ok 200
  | .error e => .error e

/-! ## `health_check`, the dependency guards and the `__main__` blocks -/

/-- A JSON scalar appearing in the health body. -/
inductive JVal
  | s (v : String)
  | n (v : Int)
deriving DecidableEq

/-- `SSEMCPServer.health_check` (lines 166-177): a `200` response whose
JSON body is the object literally constructed in the source; `now` is the
clock reading `time.time()` at the call and `startTime` the `_start_time`
recorded in `__init__`. -/
def health_check (version : String) (startTime now : Int) :
    Nat × List (String × JVal) :=
  (200,
   [("status", .s "healthy"),
    ("server", .s "browser-use-mcp"),
    ("version", .s version),
    ("transport", .s "sse"),
    ("uptime_seconds", .n (now - startTime))])

/-- Lookup of a key in a JSON object given as a key-value list. -/
def jLookup (l : List (String × JVal)) (k : String) : Option JVal :=
  match l with
  | [] => none
  | (k', v) :: rest => if k' = k then some v else jLookup rest k

/-- Observable process events during module import and server start. -/
inductive StartEvent
  | printedErr (msg : String)
  | exited (code : Nat)
  | boundPort (host : String) (port : Nat)
  | served
deriving DecidableEq

/-- The module import-time dependency guards (lines 31-51) followed by the
serving phase of `main_sse`: a missing dependency prints its diagnostic to
stderr and exits the process with code 1; only when both imports succeed
does the process go on to bind the port and serve. -/
def module_startup (starletteOk mcpOk : Bool) (host : String) (port : Nat) :
    List StartEvent :=
  if !starletteOk then
    [.printedErr
      "Starlette/Uvicorn not available. Install with: pip install starlette uvicorn",
     .exited 1]
  else if !mcpOk then
    [.printedErr "MCP SSE support not available. Install with: pip install mcp",
     .exited 1]
  else
    [.boundPort host port, .served]

/-- The parsed command line of the script. -/
structure CliArgs where
  host : String
  port : Nat
  sessionTimeoutMinutes : Nat
deriving DecidableEq

/-- Value of the last occurrence of `flag` in `argv`, as argparse stores
repeated options. -/
def lastFlagValue (flag : String) : List String → Option String
  | [] => none
  | [_] => none
  | a :: b :: rest =>
    match lastFlagValue flag (b :: rest) with
    | some v => some v
    | none => if a = flag then some b else none

/-- Argument parsing of the first `__main__` entry block (lines 264-270):
`--host` defaults to "0.0.0.0", `--port` is an int defaulting to 8000,
`--session-timeout` is an int defaulting to 10; a non-integer value makes
argparse fail (modelled as `none`). -/
def parse_args_block1 (argv : List String) : Option CliArgs := do
  let host := (lastFlagValue "--host" argv).getD "0.0.0.0"
  let port ← match lastFlagValue "--port" argv with
    | none => some 8000
    | some s => s.toNat?
  let st ← match lastFlagValue "--session-timeout" argv with
    | none => some 10
    | some s => s.toNat?
  some ⟨host, port, st⟩

/-- Argument parsing of the second, textually identical `__main__` entry
block (lines 281-287). -/
def parse_args_block2 (argv : List String) : Option CliArgs := do
  let host := (lastFlagValue "--host" argv).getD "0.0.0.0"
  let port ← match lastFlagValue "--port" argv with
    | none => some 8000
    | some s => s.toNat?
  let st ← match lastFlagValue "--session-timeout" argv with
    | none => some 10
    | some s => s.toNat?
  some ⟨host, port, st⟩

/-- First `__main__` entry block: parse the command line, then call
`asyncio.run(main_sse(host, port, session_timeout))` with the parsed
values (returned here as the triple handed to `main_sse`). -/
def entry_block_1 (argv : List String) : Option (String × Nat × Nat) :=
  (parse_args_block1 argv).map fun a => (a.host, a.port, a.sessionTimeoutMinutes)

/-- Second `__main__` entry block (lines 280-293), executed after the
first `asyncio.run` returns. -/
def entry_block_2 (argv : List String) : Option (String × Nat × Nat) :=
  (parse_args_block2 argv).map fun a => (a.host, a.port, a.sessionTimeoutMinutes)

/-- The whole `__main__` section of the module: the two entry blocks run
in textual order within one interpreter run. -/
def script_main (argv : List String) : List (Option (String × Nat × Nat)) :=
  [entry_block_1 argv, entry_block_2 argv]

/-- Concrete request used to witness C1: a raw JSON POST to an open
session. -/
def c1WitnessRequest : Request :=
  ⟨"application/json", [], [123, 125], SessionState.Open, true⟩

/-- A raw JSON POST of payload `P` to an open session. -/
def jsonRequest (P : Bytes) : Request :=
  ⟨"application/json", [], P, SessionState.Open, true⟩

/-- A multipart POST whose `data` field is an uploaded file with the raw
payload bytes `P`, addressed to an open session. -/
def multipartFileRequest (P : Bytes) : Request :=
  ⟨"multipart/form-data; boundary=x", [("data", FormField.file P)], [],
   SessionState.Open, true⟩

/-- A multipart POST whose `data` field is a text field with code points
`s`, addressed to an open session. -/
def multipartTextRequest (s : List Nat) : Request :=
  ⟨"multipart/form-data; boundary=x", [("data", FormField.text s)], [],
   SessionState.Open, true⟩

/-- Concrete request used to witness C3: a multipart upload whose bytes
are not valid UTF-8. -/
def c3WitnessRequest : Request :=
  ⟨"multipart/form-data; boundary=x", [("data", FormField.file [0xFF])], [],
   SessionState.Open, true⟩

/-- Concrete request used to witness C4: a multipart form with no `data`
field at all. -/
def c4WitnessRequest : Request :=
  ⟨"multipart/form-data; boundary=x", [("other", FormField.text [97])], [],
   SessionState.Open, true⟩

/-- Concrete request used to witness C8: a multipart form whose `data`
field is present but holds the empty string. -/
def c8WitnessRequest : Request :=
  ⟨"multipart/form-data; boundary=x", [("data", FormField.text [])], [],
   SessionState.Open, true⟩

/-- Concrete request used to witness C9: a multipart form whose `data`
field is an uploaded file holding the single byte 0xFF, which is not
valid UTF-8. -/
def c9WitnessRequest : Request :=
  ⟨"multipart/form-data; boundary=x", [("data", FormField.file [255])], [],
   SessionState.Open, true⟩

/-! ## Theorems -/

theorem encodeOne_aux {b : Nat} (rest : List Nat) (hb : b < 0x80) :
    utf8EncodeChar b ++ rest = b :: rest := by
  unfold utf8EncodeChar
  rw [if_pos hb]
  rfl

theorem encodeTwo_aux {b c1 : Nat} (rest2 : List Nat)
    (hr : 0xC2 ≤ b ∧ b ≤ 0xDF) (hc : contByte c1) :
    utf8EncodeChar ((b - 0xC0) * 64 + (c1 - 0x80)) ++ rest2
      = b :: c1 :: rest2 := by
  unfold contByte at hc
  unfold utf8EncodeChar
  rw [if_neg (by omega), if_pos (by omega)]
  have h1 : 0xC0 + ((b - 0xC0) * 64 + (c1 - 0x80)) / 64 = b := by omega
  have h2 : 0x80 + ((b - 0xC0) * 64 + (c1 - 0x80)) % 64 = c1 := by omega
  rw [h1, h2]
  rfl

theorem encodeThree_aux {b c1 c2 : Nat} (rest3 : List Nat)
    (hr : 0xE0 ≤ b ∧ b ≤ 0xEF) (hc : secondOf3 b c1 ∧ contByte c2) :
    utf8EncodeChar ((b - 0xE0) * 4096 + (c1 - 0x80) * 64 + (c2 - 0x80)) ++ rest3
      = b :: c1 :: c2 :: rest3 := by
  obtain ⟨⟨hc1, he0, _⟩, hc2⟩ := hc
  unfold contByte at hc1 hc2
  have hlo : 0x800 ≤ (b - 0xE0) * 4096 + (c1 - 0x80) * 64 + (c2 - 0x80) := by
    by_cases h0 : b = 0xE0
    · have := he0 h0; omega
    · omega
  unfold utf8EncodeChar
  rw [if_neg (by omega), if_neg (by omega), if_pos (by omega)]
  have h1 : 0xE0 + ((b - 0xE0) * 4096 + (c1 - 0x80) * 64 + (c2 - 0x80)) / 4096
      = b := by omega
  have h2 : 0x80 + ((b - 0xE0) * 4096 + (c1 - 0x80) * 64 + (c2 - 0x80)) / 64 % 64
      = c1 := by omega
  have h3 : 0x80 + ((b - 0xE0) * 4096 + (c1 - 0x80) * 64 + (c2 - 0x80)) % 64
      = c2 := by omega
  rw [h1, h2, h3]
  rfl

theorem encodeFour_aux {b c1 c2 c3 : Nat} (rest4 : List Nat)
    (hr : 0xF0 ≤ b ∧ b ≤ 0xF4)
    (hc : secondOf4 b c1 ∧ contByte c2 ∧ contByte c3) :
    utf8EncodeChar ((b - 0xF0) * 262144 + (c1 - 0x80) * 4096 + (c2 - 0x80) * 64
        + (c3 - 0x80)) ++ rest4
      = b :: c1 :: c2 :: c3 :: rest4 := by
  obtain ⟨⟨hc1, hf0, _⟩, hc2, hc3⟩ := hc
  unfold contByte at hc1 hc2 hc3
  have hlo : 0x10000 ≤ (b - 0xF0) * 262144 + (c1 - 0x80) * 4096
      + (c2 - 0x80) * 64 + (c3 - 0x80) := by
    by_cases h0 : b = 0xF0
    · have := hf0 h0; omega
    · omega
  unfold utf8EncodeChar
  rw [if_neg (by omega), if_neg (by omega), if_neg (by omega)]
  have h1 : 0xF0 + ((b - 0xF0) * 262144 + (c1 - 0x80) * 4096 + (c2 - 0x80) * 64
      + (c3 - 0x80)) / 262144 = b := by omega
  have h2 : 0x80 + ((b - 0xF0) * 262144 + (c1 - 0x80) * 4096 + (c2 - 0x80) * 64
      + (c3 - 0x80)) / 4096 % 64 = c1 := by omega
  have h3 : 0x80 + ((b - 0xF0) * 262144 + (c1 - 0x80) * 4096 + (c2 - 0x80) * 64
      + (c3 - 0x80)) / 64 % 64 = c2 := by omega
  have h4 : 0x80 + ((b - 0xF0) * 262144 + (c1 - 0x80) * 4096 + (c2 - 0x80) * 64
      + (c3 - 0x80)) % 64 = c3 := by omega
  rw [h1, h2, h3, h4]
  rfl

/-- One-character soundness: a decoded code point re-encodes to exactly
the bytes that were consumed. -/
theorem utf8DecodeOne_encode {b : Nat} {rest rest' : List Nat} {cp : Nat}
    (h : utf8DecodeOne b rest = some (cp, rest')) :
    utf8EncodeChar cp ++ rest' = b :: rest := by
  unfold utf8DecodeOne at h
  by_cases h1 : b < 0x80
  · rw [if_pos h1] at h
    injection h with hp
    injection hp with h2 h3
    subst h2; subst h3
    exact encodeOne_aux rest h1
  · rw [if_neg h1] at h
    by_cases h2 : 0xC2 ≤ b ∧ b ≤ 0xDF
    · rw [if_pos h2] at h
      cases rest with
      | nil => exact Option.noConfusion h
      | cons c1 r1 =>
        dsimp only at h
        by_cases h3 : contByte c1
        · rw [if_pos h3] at h
          injection h with hp
          injection hp with h4 h5
          subst h4; subst h5
          exact encodeTwo_aux r1 h2 h3
        · rw [if_neg h3] at h
          exact Option.noConfusion h
    · rw [if_neg h2] at h
      by_cases h3 : 0xE0 ≤ b ∧ b ≤ 0xEF
      · rw [if_pos h3] at h
        match rest, h with
        | [], h => exact Option.noConfusion h
        | [c1], h => exact Option.noConfusion h
        | c1 :: c2 :: r2, h =>
          dsimp only at h
          by_cases h4 : secondOf3 b c1 ∧ contByte c2
          · rw [if_pos h4] at h
            injection h with hp
            injection hp with h5 h6
            subst h5; subst h6
            exact encodeThree_aux r2 h3 h4
          · rw [if_neg h4] at h
            exact Option.noConfusion h
      · rw [if_neg h3] at h
        by_cases h4 : 0xF0 ≤ b ∧ b ≤ 0xF4
        · rw [if_pos h4] at h
          match rest, h with
          | [], h => exact Option.noConfusion h
          | [c1], h => exact Option.noConfusion h
          | [c1, c2], h => exact Option.noConfusion h
          | c1 :: c2 :: c3 :: r3, h =>
            dsimp only at h
            by_cases h5 : secondOf4 b c1 ∧ contByte c2 ∧ contByte c3
            · rw [if_pos h5] at h
              injection h with hp
              injection hp with h6 h7
              subst h6; subst h7
              exact encodeFour_aux r3 h4 h5
            · rw [if_neg h5] at h
              exact Option.noConfusion h
        · rw [if_neg h4] at h
          exact Option.noConfusion h

theorem utf8Encode_utf8DecodeFuel :
    ∀ (fuel : Nat) (bs cps : List Nat),
      utf8DecodeFuel fuel bs = some cps → utf8Encode cps = bs := by
  intro fuel
  induction fuel with
  | zero =>
    intro bs cps h
    match bs with
    | [] =>
      injection h with h1
      subst h1
      rfl
    | b :: rest => exact Option.noConfusion h
  | succ n ih =>
    intro bs cps h
    match bs with
    | [] =>
      injection h with h1
      subst h1
      rfl
    | b :: rest =>
      unfold utf8DecodeFuel at h
      cases hone : utf8DecodeOne b rest with
      | none => rw [hone] at h; exact Option.noConfusion h
      | some pr =>
        obtain ⟨cp, rest'⟩ := pr
        rw [hone] at h
        dsimp only at h
        cases hrec : utf8DecodeFuel n rest' with
        | none => rw [hrec] at h; exact Option.noConfusion h
        | some cs =>
          rw [hrec] at h
          injection h with h1
          subst h1
          show utf8EncodeChar cp ++ utf8Encode cs = b :: rest
          rw [ih rest' cs hrec]
          exact utf8DecodeOne_encode hone

/-- Round trip: re-encoding the code points decoded from valid UTF-8 bytes
reproduces exactly the original bytes. -/
theorem utf8Encode_utf8Decode (bs cps : List Nat)
    (h : utf8Decode bs = some cps) : utf8Encode cps = bs :=
  utf8Encode_utf8DecodeFuel bs.length bs cps h

/-- Whenever the `try` body completes with a result that made a transport
call, that call is `handle_post_message` on the session and parse state of
the request, on some payload. -/
theorem handle_messages_body_transport_shape (req : Request)
    (texc : Option String) (r : HandlerResult)
    (h : handle_messages_body req texc = Except.ok r) :
    r.transport = none
    ∨ ∃ payload, r.transport
        = some (handle_post_message req.session req.parsesOk payload) := by
  unfold handle_messages_body at h
  repeat' split at h
  all_goals first
    | exact Except.noConfusion h
    | (injection h with h1; subst h1; exact Or.inl rfl)
    | (injection h with h1; subst h1; exact Or.inr ⟨_, rfl⟩)

/-- Whenever `handle_messages` makes a transport call, the call is
`handle_post_message` on the session and parse state of the request, on
some payload. -/
theorem handle_messages_transport_shape (req : Request) :
    (handle_messages req).transport = none
    ∨ ∃ payload, (handle_messages req).transport
        = some (handle_post_message req.session req.parsesOk payload) := by
  unfold handle_messages handle_messages_full
  cases hb : handle_messages_body req none with
  | error e => exact Or.inl rfl
  | ok r => exact handle_messages_body_transport_shape req none r hb

/-- C1: for every POST to `/messages` with a session id and a payload in
either accepted encoding, the client-observable response status of
`handle_messages` is 202 on successful delivery (and only then), 400 on a
multipart request missing its data field, 404 on an unknown session id,
and 400 on a closed session or a payload that does not parse. -/
theorem c1_messages_response_statuses (req : Request) :
    (engineObserved (handle_messages req) ≠ none →
      clientStatus (handle_messages req) = 202)
    ∧ (isMultipartReq req = true → formGet req.form "data" = none →
      clientStatus (handle_messages req) = 400)
    ∧ ((handle_messages req).transport.isSome = true →
      req.session = SessionState.NotFound →
      clientStatus (handle_messages req) = 404)
    ∧ ((handle_messages req).transport.isSome = true →
      req.session = SessionState.Closed →
      clientStatus (handle_messages req) = 400)
    ∧ ((handle_messages req).transport.isSome = true →
      req.session = SessionState.Open → req.parsesOk = false →
      clientStatus (handle_messages req) = 400) := by
  refine ⟨?_, ?_, ?_, ?_, ?_⟩
  · intro hne
    rcases handle_messages_transport_shape req with h | ⟨p, h⟩
    · exfalso
      apply hne
      unfold engineObserved
      rw [h]
    · unfold engineObserved at hne
      unfold clientStatus
      rw [h] at hne ⊢
      dsimp only at hne ⊢
      revert hne
      unfold handle_post_message
      cases req.session with
      | NotFound => intro hne; exact absurd rfl hne
      | Closed => intro hne; exact absurd rfl hne
      | Open =>
        cases req.parsesOk with
        | false => intro hne; exact absurd rfl hne
        | true => intro _; rfl
  · intro hm hf
    simp [handle_messages, handle_messages_full, handle_messages_body,
      clientStatus, hm, hf]
  · intro hs hnf
    rcases handle_messages_transport_shape req with h | ⟨p, h⟩
    · rw [h] at hs
      exact Bool.noConfusion hs
    · unfold clientStatus
      rw [h, hnf]
      rfl
  · intro hs hcl
    rcases handle_messages_transport_shape req with h | ⟨p, h⟩
    · rw [h] at hs
      exact Bool.noConfusion hs
    · unfold clientStatus
      rw [h, hcl]
      rfl
  · intro hs hop hpar
    rcases handle_messages_transport_shape req with h | ⟨p, h⟩
    · rw [h] at hs
      exact Bool.noConfusion hs
    · unfold clientStatus
      rw [h, hop, hpar]
      rfl

/-- C1 witness: a concrete raw-JSON POST to an open session is delivered
and the client-observable status is 202. -/
theorem c1_messages_response_statuses_witness :
    clientStatus (handle_messages c1WitnessRequest) = 202 :=
  (c1_messages_response_statuses c1WitnessRequest).1 (by decide)

/-- C2: for every valid (UTF-8, non-empty) payload `P` delivered to an
open session, the engine observes byte-identical payload bytes whether `P`
arrives as a raw JSON body, as a multipart uploaded file, or as a
multipart text field: the multipart extraction (read, UTF-8 decode, UTF-8
re-encode) composed with the rebuilt receive callable yields exactly the
bytes of `P` that the JSON branch forwards unchanged. -/
theorem c2_encoding_transparency (P : Bytes) (cps : List Nat)
    (hdec : utf8Decode P = some cps) (hne : P ≠ []) :
    engineObserved (handle_messages (jsonRequest P)) = some P
    ∧ engineObserved (handle_messages (multipartFileRequest P)) = some P
    ∧ engineObserved (handle_messages (multipartTextRequest cps)) = some P := by
  have hcps : cps.isEmpty = false := by
    cases cps with
    | nil =>
      exfalso
      apply hne
      have := utf8Encode_utf8Decode P [] hdec
      exact this.symm
    | cons c cs => rfl
  have henc : utf8Encode cps = P := utf8Encode_utf8Decode P cps hdec
  refine ⟨rfl, ?_, ?_⟩
  · have hmp : isMultipartReq (multipartFileRequest P) = true := rfl
    have hfg : formGet (multipartFileRequest P).form "data"
        = some (FormField.file P) := rfl
    have hsess : (multipartFileRequest P).session = SessionState.Open := rfl
    have hpar : (multipartFileRequest P).parsesOk = true := rfl
    simp [handle_messages, handle_messages_full, handle_messages_body,
      engineObserved, hmp, hfg, hsess, hpar, FormField.isFalsy, fieldText,
      hdec, henc, handle_post_message]
  · have hmp : isMultipartReq (multipartTextRequest cps) = true := rfl
    have hfg : formGet (multipartTextRequest cps).form "data"
        = some (FormField.text cps) := rfl
    have hsess : (multipartTextRequest cps).session = SessionState.Open := rfl
    have hpar : (multipartTextRequest cps).parsesOk = true := rfl
    simp [handle_messages, handle_messages_full, handle_messages_body,
      engineObserved, hmp, hfg, hsess, hpar, FormField.isFalsy, hcps,
      fieldText, henc, handle_post_message]

/-- C2 witness: the two-byte payload `\x7b\x7d` (the JSON text of an empty
object) is observed identically by the engine under all three encodings. -/
theorem c2_encoding_transparency_witness :
    engineObserved (handle_messages (jsonRequest [123, 125])) = some [123, 125]
    ∧ engineObserved (handle_messages (multipartFileRequest [123, 125]))
        = some [123, 125]
    ∧ engineObserved (handle_messages (multipartTextRequest [123, 125]))
        = some [123, 125] :=
  c2_encoding_transparency [123, 125] [123, 125] (by decide) (by decide)

/-- C3 counterexample: `handle_sse` has no boundary `try`/`except`, so an
engine exception propagates out of the handler instead of being converted
to a 500-class response there, refuting the claim that no handler
invocation ever lets an exception escape. -/
theorem c3_exception_escapes_handle_sse :
    handle_sse_run (Except.error "boom") = Except.error "boom" := rfl

/-- C3 (amended): `handle_messages` catches any exception raised in its
body at the handler boundary and converts it to a 500 text/plain response
whose body is the exception text; `handle_sse` has no such boundary, so an
exception from the engine run propagates out of `handle_sse`. -/
theorem c3_exception_boundaries :
    (∀ (req : Request) (texc : Option String) (e : String),
      handle_messages_body req texc = Except.error e →
      handle_messages_full req texc
        = ⟨none, 500, e, some "text/plain"⟩)
    ∧ (∀ e : String, handle_sse_run (Except.error e) = Except.error e) := by
  constructor
  · intro req texc e h
    unfold handle_messages_full
    rw [h]
  · intro e
    rfl

/-- C3 (amended) witness: a concrete multipart upload with invalid UTF-8
raises inside the body, and `handle_messages` converts it to a 500
text/plain response. -/
theorem c3_exception_boundaries_witness :
    handle_messages_full c3WitnessRequest none
      = ⟨none, 500, unicodeDecodeErrorText, some "text/plain"⟩ :=
  c3_exception_boundaries.1 c3WitnessRequest none unicodeDecodeErrorText
    (by rfl)

/-- C4: a multipart POST whose form has no field named `data` yields the
400 response with the diagnostic text body, and the engine is not invoked
(the transport component of the result is `none`). -/
theorem c4_multipart_missing_data (req : Request)
    (hm : isMultipartReq req = true)
    (hf : formGet req.form "data" = none) :
    handle_messages req
      = ⟨none, 400, "Missing \x27data\x27 field in form",
         some "text/plain"⟩ := by
  simp [handle_messages, handle_messages_full, handle_messages_body, hm, hf]

/-- C4 witness: a concrete multipart request whose only field is named
`other`. -/
theorem c4_multipart_missing_data_witness :
    handle_messages c4WitnessRequest
      = ⟨none, 400, "Missing \x27data\x27 field in form",
         some "text/plain"⟩ :=
  c4_multipart_missing_data c4WitnessRequest (by decide) (by decide)

/-- C5: when a required dependency is missing at startup, the process
trace is exactly a diagnostic printed to the error stream followed by an
exit with code 1 — in particular no port is ever bound and nothing is
served. -/
theorem c5_missing_dependency_exits (starletteOk mcpOk : Bool)
    (host : String) (port : Nat)
    (h : starletteOk = false ∨ mcpOk = false) :
    ∃ msg, module_startup starletteOk mcpOk host port
      = [StartEvent.printedErr msg, StartEvent.exited 1] := by
  rcases h with h | h
  · subst h
    exact ⟨_, rfl⟩
  · subst h
    cases starletteOk with
    | false => exact ⟨_, rfl⟩
    | true => exact ⟨_, rfl⟩

/-- C5 witness: with starlette/uvicorn missing the startup trace is print
then exit 1. -/
theorem c5_missing_dependency_exits_witness :
    ∃ msg, module_startup false true "0.0.0.0" 8000
      = [StartEvent.printedErr msg, StartEvent.exited 1] :=
  c5_missing_dependency_exits false true "0.0.0.0" 8000 (Or.inl rfl)

/-- C6: `health_check` returns status 200 with a JSON body whose keys are
exactly `status, server, version, transport, uptime_seconds` in which
`transport` is the string `sse` and `uptime_seconds` is the clock reading
at the call minus the start time recorded at construction. -/
theorem c6_health_check_shape (version : String) (startTime now : Int) :
    (health_check version startTime now).1 = 200
    ∧ (health_check version startTime now).2.map Prod.fst
        = ["status", "server", "version", "transport", "uptime_seconds"]
    ∧ jLookup (health_check version startTime now).2 "transport"
        = some (JVal.s "sse")
    ∧ jLookup (health_check version startTime now).2 "uptime_seconds"
        = some (JVal.n (now - startTime)) :=
  ⟨rfl, rfl, rfl, rfl⟩

/-- C7: within one process lifetime (same recorded start time), the
uptime reported by a later `health_check` call is at least the uptime
reported by an earlier one, provided the clock readings are
non-decreasing. -/
theorem c7_uptime_monotone (version : String) (startTime now1 now2 : Int)
    (hclock : now1 ≤ now2) (u1 u2 : Int)
    (h1 : jLookup (health_check version startTime now1).2 "uptime_seconds"
        = some (JVal.n u1))
    (h2 : jLookup (health_check version startTime now2).2 "uptime_seconds"
        = some (JVal.n u2)) :
    u1 ≤ u2 := by
  simp [health_check, jLookup] at h1 h2
  omega

/-- C7 witness: concrete calls at clock readings 3 then 5 with start time
1 report uptimes 2 and 4. -/
theorem c7_uptime_monotone_witness : (2 : Int) ≤ 4 :=
  c7_uptime_monotone "v" 1 3 5 (by decide) 2 4 (by decide) (by decide)

/-- C8: a multipart POST whose `data` field is present but holds the
empty string is treated as missing: the handler returns the 400 missing
data response and never forwards anything to the engine. -/
theorem c8_empty_data_field_rejected (req : Request)
    (hm : isMultipartReq req = true)
    (hf : formGet req.form "data" = some (FormField.text [])) :
    handle_messages req
      = ⟨none, 400, "Missing \x27data\x27 field in form",
         some "text/plain"⟩ := by
  simp [handle_messages, handle_messages_full, handle_messages_body, hm, hf,
    FormField.isFalsy]

/-- C8 witness: a concrete multipart request whose `data` field is the
empty string. -/
theorem c8_empty_data_field_rejected_witness :
    handle_messages c8WitnessRequest
      = ⟨none, 400, "Missing \x27data\x27 field in form",
         some "text/plain"⟩ :=
  c8_empty_data_field_rejected c8WitnessRequest (by decide) (by decide)

/-- C9: a multipart POST whose `data` field is an uploaded file holding
bytes that are not valid UTF-8 does not produce a 400 client error: the
decode failure is caught by the outer except clause and the response is a
500 text/plain response whose body is the exception text, with no engine
invocation. -/
theorem c9_invalid_utf8_gives_500 (req : Request) (bs : Bytes)
    (hm : isMultipartReq req = true)
    (hf : formGet req.form "data" = some (FormField.file bs))
    (hinv : utf8Decode bs = none) :
    handle_messages req
        = ⟨none, 500, unicodeDecodeErrorText, some "text/plain"⟩
    ∧ (handle_messages req).retStatus ≠ 400 := by
  have hres : handle_messages req
      = ⟨none, 500, unicodeDecodeErrorText, some "text/plain"⟩ := by
    simp [handle_messages, handle_messages_full, handle_messages_body, hm, hf,
      FormField.isFalsy, fieldText, hinv]
  refine ⟨hres, ?_⟩
  rw [hres]
  decide

/-- C9 witness: a concrete multipart upload of the single byte 0xFF. -/
theorem c9_invalid_utf8_gives_500_witness :
    handle_messages c9WitnessRequest
        = ⟨none, 500, unicodeDecodeErrorText, some "text/plain"⟩
    ∧ (handle_messages c9WitnessRequest).retStatus ≠ 400 :=
  c9_invalid_utf8_gives_500 c9WitnessRequest [255] (by decide) (by decide)
    (by decide)

/-- C10: the `__main__` section consists of two entry blocks executed in
sequence, and the second block re-parses the same argv and hands
`main_sse` exactly the same host, port and session-timeout values as the
first. -/
theorem c10_two_identical_entry_blocks (argv : List String) :
    script_main argv = [entry_block_1 argv, entry_block_2 argv]
    ∧ entry_block_2 argv = entry_block_1 argv
    ∧ (script_main argv).length = 2 :=
  ⟨rfl, rfl, rfl⟩
